import Mathlib

/-!
Verification of the diagnostic HTTP listener in `src/scripts/income.py`
(class `RequestHandler`, methods `_set_headers`, `do_GET`, `do_POST`).

Modelling choices:
* A request is its path, its header list in receipt order, and the byte
  stream available on `self.rfile` after the header section.
* `print(x)` appends the printed string `x` to a console transcript
  (the trailing newline each `print` adds is implicit in the list
  structure: one list entry per `print` call).
* Writes to `self.wfile` (via `send_response` / `send_header` /
  `end_headers` / `wfile.write`) append events to a wire transcript in
  the order the handler issues them.
* Python exceptions (`ValueError` from `int(...)` on line 21 or from
  `rfile.read(...)` on line 22, `UnicodeDecodeError` from
  `bytes.decode("utf-8")` on line 29) abort the handler; the result
  records the console and wire output produced up to the raise, plus
  which exception escaped.
* Machine integers do not occur: Python ints are unbounded, so `Int`
  and `Nat` model them exactly; body bytes are `Nat`s below 256.
-/

/-- A value that is either a Python `str` or a Python `int`; the result
type of `self.headers.get("Content-Length", 0)`, whose default argument
is the int `0` while a present header yields its string value. -/
inductive StrOrInt where
  | str (s : String)
  | int (n : Int)
deriving DecidableEq, Repr

/-- Characters Python `int(str)` strips as whitespace: the full Unicode
whitespace set CPython consults (ASCII space, `\t`-`\r`, `\x1c`-`\x1f`,
NEL `\x85`, NBSP `\xa0` — the latter two reachable through Latin-1
header parsing — plus the higher whitespace code points). -/
def isPySpace (c : Char) : Bool :=
  c = ' ' || c = '\t' || c = '\n' || c = '\r' || c = '\x0b' || c = '\x0c' ||
  (0x1C ≤ c.toNat && c.toNat ≤ 0x1F) || c.toNat = 0x85 || c.toNat = 0xA0 ||
  c.toNat = 0x1680 || (0x2000 ≤ c.toNat && c.toNat ≤ 0x200A) ||
  c.toNat = 0x2028 || c.toNat = 0x2029 || c.toNat = 0x202F ||
  c.toNat = 0x205F || c.toNat = 0x3000

/-- Strip leading and trailing whitespace from a character list. -/
def stripWs (cs : List Char) : List Char :=
  ((cs.dropWhile isPySpace).reverse.dropWhile isPySpace).reverse

/-- Decimal digit sequence parser for Python `int(str)`: the
accumulator-passing loop consumes digits, allowing a single underscore
only between two digits (as Python's integer literals do). The caller
has already consumed the first digit into `acc`. -/
def pyDigitsAux : List Char → Nat → Option Nat
  | [], acc => some acc
  | c :: rest, acc =>
    if c.isDigit then pyDigitsAux rest (acc * 10 + (c.toNat - 48))
    else if c = '_' then
      match rest with
      | c2 :: rest2 =>
        if c2.isDigit then pyDigitsAux rest2 (acc * 10 + (c2.toNat - 48))
        else none
      | [] => none
    else none

/-- Parse a nonempty unsigned decimal digit run (first character must be
a digit), per Python `int(str)` after sign handling. ASCII digits only:
the non-ASCII decimal digits Python also accepts lie above U+00FF and
cannot reach a header value through Latin-1 header parsing. -/
def pyUnsignedDigits : List Char → Option Nat
  | [] => none
  | c :: rest =>
    if c.isDigit then pyDigitsAux rest (c.toNat - 48) else none

/-- Python `int(s)` for a string argument: strip surrounding whitespace,
accept an optional sign, then a digit run; `none` models the
`ValueError` raised on any other shape (including the empty string). -/
def pyIntOfString (s : String) : Option Int :=
  match stripWs s.toList with
  | '-' :: rest => (pyUnsignedDigits rest).map (fun n => -(n : Int))
  | '+' :: rest => (pyUnsignedDigits rest).map (fun n => (n : Int))
  | rest => (pyUnsignedDigits rest).map (fun n => (n : Int))

/-- Python `int(x)` as applied on line 21: the argument is either the
header's string value (parsed, possibly raising `ValueError` = `none`)
or the default int `0` (returned unchanged). -/
def pyInt : StrOrInt → Option Int
  | .int n => some n
  | .str s => pyIntOfString s

/-- ASCII lowercasing of a character, as `str.lower()` acts on the
ASCII header names HTTP allows. -/
def lowerChar (c : Char) : Char :=
  if 'A' ≤ c ∧ c ≤ 'Z' then Char.ofNat (c.toNat + 32) else c

/-- ASCII lowercasing of a string (header names are ASCII). -/
def lowerStr (s : String) : String := String.mk (s.toList.map lowerChar)

/-- `self.headers.get(name, default)`: the header object compares names
case-insensitively and returns the value of the first matching header,
or the default when no header matches. -/
def headersGet (hs : List (String × String)) (name : String)
    (dflt : StrOrInt) : StrOrInt :=
  match hs.find? (fun p => lowerStr p.1 = lowerStr name) with
  | some p => .str p.2
  | none => dflt

/-- `self.rfile.read(n)`: the handler's `rfile` is an
`io.BufferedReader`, whose `read` accepts a nonnegative size (read up
to `n` bytes) or exactly `-1` (read to end of stream); every size below
`-1` raises `ValueError` ("read length must be non-negative or -1"),
modelled as `none`. -/
def rfileRead (stream : List Nat) (n : Int) : Option (List Nat) :=
  if n = -1 then some stream
  else if n < -1 then none
  else some (stream.take n.toNat)

/-- Is `b` a UTF-8 continuation byte (`0x80 ≤ b < 0xC0`)? -/
def isCont (b : Nat) : Bool := 0x80 ≤ b && b < 0xC0

/-- Strict UTF-8 decoder, the semantics of `bytes.decode("utf-8")`:
yields the code-point sequence, or `none` (modelling
`UnicodeDecodeError`) on stray continuation bytes, truncated sequences,
overlong encodings, surrogates, or code points above U+10FFFF. -/
def utf8Decode : List Nat → Option (List Nat)
  | [] => some []
  | b :: rest =>
    if b < 0x80 then (utf8Decode rest).map (b :: ·)
    else if b < 0xC2 then none
    else if b < 0xE0 then
      match rest with
      | b1 :: rest2 =>
        if isCont b1 then
          (utf8Decode rest2).map (((b - 0xC0) * 64 + (b1 - 0x80)) :: ·)
        else none
      | [] => none
    else if b < 0xF0 then
      match rest with
      | b1 :: b2 :: rest2 =>
        if isCont b1 && isCont b2 then
          let cp := (b - 0xE0) * 4096 + (b1 - 0x80) * 64 + (b2 - 0x80)
          if 0x800 ≤ cp && ¬(0xD800 ≤ cp && cp ≤ 0xDFFF) then
            (utf8Decode rest2).map (cp :: ·)
          else none
        else none
      | _ => none
    else if b < 0xF5 then
      match rest with
      | b1 :: b2 :: b3 :: rest2 =>
        if isCont b1 && isCont b2 && isCont b3 then
          let cp := (b - 0xF0) * 262144 + (b1 - 0x80) * 4096 +
            (b2 - 0x80) * 64 + (b3 - 0x80)
          if 0x10000 ≤ cp && cp ≤ 0x10FFFF then
            (utf8Decode rest2).map (cp :: ·)
          else none
        else none
      | _ => none
    else none

/-- `bytes.decode("utf-8")` yielding a Lean `String` (the decoder only
produces valid scalar values, so `Char.ofNat` is faithful). -/
def utf8DecodeString (bs : List Nat) : Option String :=
  (utf8Decode bs).map (fun cps => String.mk (cps.map Char.ofNat))

/-- An incoming HTTP request as the handler sees it: `self.path`, the
header pairs of `self.headers.items()` in receipt order, and the byte
stream `self.rfile` holds after the header section. -/
structure Request where
  path : String
  headers : List (String × String)
  body : List Nat
deriving DecidableEq, Repr

/-- One event written to the client on `self.wfile`. -/
inductive WireEvent where
  | statusLine (code : Nat)
  | header (name value : String)
  | endHeaders
  | bodyWrite (s : String)
deriving DecidableEq, Repr

/-- A Python exception escaping the handler. -/
inductive PyError where
  | valueError
  | unicodeDecodeError
deriving DecidableEq, Repr

/-- Result of running a handler method: everything printed to the
console (in order), everything written to the client (in order), and
the exception that escaped, if any. -/
structure HandlerResult where
  console : List String
  wire : List WireEvent
  exn : Option PyError
deriving DecidableEq, Repr

/-- `RequestHandler._set_headers` (lines 6-9): `send_response(200)`,
`send_header("Content-type", "text/plain")`, `end_headers()`. -/
def set_headers : List WireEvent :=
  [.statusLine 200, .header "Content-type" "text/plain", .endHeaders]

/-- The console line printed for one header pair (lines 16 and 28). -/
def headerLine (p : String × String) : String :=
  "  " ++ p.1 ++ ": " ++ p.2

/-- `RequestHandler.do_GET` (lines 11-18): print the section marker,
path, "Headers:" and every header pair, then send the fixed response. -/
def do_GET (req : Request) : HandlerResult :=
  { console :=
      ["\n===== GET REQUEST ======", "Path: " ++ req.path, "Headers:"]
        ++ req.headers.map headerLine
    wire := set_headers ++ [.bodyWrite "GET request received"]
    exn := none }

/-- Line 21: `int(self.headers.get("Content-Length", 0))`; `none`
models the `ValueError` raised on an unparsable header value. -/
def postContentLength (req : Request) : Option Int :=
  pyInt (headersGet req.headers "Content-Length" (.int 0))

/-- `RequestHandler.do_POST` (lines 20-32): parse `Content-Length`
(line 21 raises `ValueError` before anything is printed or written),
read that many body bytes (line 22 raises `ValueError` for a size below
`-1`, still before any output), print the section marker, path,
headers, and the decoded body (line 29 raises `UnicodeDecodeError`
after the header prints but before any response write), then send the
fixed response. -/
def do_POST (req : Request) : HandlerResult :=
  match postContentLength req with
  | none => { console := [], wire := [], exn := some .valueError }
  | some content_length =>
    match rfileRead req.body content_length with
    | none => { console := [], wire := [], exn := some .valueError }
    | some post_data =>
      let headerConsole :=
        ["\n===== POST REQUEST ======", "Path: " ++ req.path, "Headers:"]
          ++ req.headers.map headerLine
      match utf8DecodeString post_data with
      | none =>
        { console := headerConsole
          wire := []
          exn := some .unicodeDecodeError }
      | some bodyText =>
        { console := headerConsole ++ ["Body:\n" ++ bodyText]
          wire := set_headers ++ [.bodyWrite "POST request received"]
          exn := none }

/-! Helper lemmas shared by several claims. -/

/-- A successful `do_POST` run always writes the fixed response:
status 200, `Content-type: text/plain`, `"POST request received"`. -/
theorem do_POST_exn_none_wire (req : Request)
    (h : (do_POST req).exn = none) :
    (do_POST req).wire =
      [WireEvent.statusLine 200, WireEvent.header "Content-type" "text/plain",
        WireEvent.endHeaders, WireEvent.bodyWrite "POST request received"] := by
  unfold do_POST at h ⊢
  cases hcl : postContentLength req with
  | none => rw [hcl] at h; simp at h
  | some cl =>
    rw [hcl] at h
    dsimp only at h ⊢
    cases hread : rfileRead req.body cl with
    | none => rw [hread] at h; simp at h
    | some data =>
      rw [hread] at h
      dsimp only at h ⊢
      cases hdec : utf8DecodeString data with
      | none => rw [hdec] at h; simp at h
      | some s => simp [hdec]; rfl

/-- Reading exactly the stream's length consumes the whole stream. -/
theorem rfileRead_length (bs : List Nat) :
    rfileRead bs (bs.length : Int) = some bs := by
  unfold rfileRead
  have h1 : ¬((bs.length : Int) = -1) := by omega
  have h2 : ¬((bs.length : Int) < -1) := by omega
  rw [if_neg h1, if_neg h2, Int.toNat_natCast, List.take_length]

/-- C1: every GET request, whatever its path and headers, gets the
fixed response on the wire: status 200, a content-type header equal
(case-insensitively, as HTTP header names compare) to
`Content-Type: text/plain`, and body `"GET request received"`. -/
theorem do_GET_response_fixed (req : Request) :
    (do_GET req).wire =
      [WireEvent.statusLine 200, WireEvent.header "Content-type" "text/plain",
        WireEvent.endHeaders, WireEvent.bodyWrite "GET request received"] ∧
    lowerStr "Content-type" = lowerStr "Content-Type" := by
  exact ⟨rfl, by decide⟩

/-- C2: a POST whose `Content-Length` parses to exactly the body's
length and whose body decodes as UTF-8 logs that decoded text after the
header block and answers with the fixed `"POST request received"`
response. -/
theorem do_POST_valid_logs_body (req : Request) (s : String)
    (hlen : postContentLength req = some (req.body.length : Int))
    (hdec : utf8DecodeString req.body = some s) :
    (do_POST req).console =
      ["\n===== POST REQUEST ======", "Path: " ++ req.path, "Headers:"]
        ++ req.headers.map headerLine ++ ["Body:\n" ++ s] ∧
    (do_POST req).wire =
      [WireEvent.statusLine 200, WireEvent.header "Content-type" "text/plain",
        WireEvent.endHeaders, WireEvent.bodyWrite "POST request received"] ∧
    (do_POST req).exn = none := by
  unfold do_POST
  rw [hlen]
  simp only [rfileRead_length, hdec]
  refine ⟨?_, ?_, ?_⟩ <;> trivial

/-- Witness for C2 at the spec's concrete scenario:
`POST /webhook` with body `{"a":1}` of length 7. -/
theorem do_POST_valid_logs_body_witness :
    (do_POST ⟨"/webhook", [("Content-Length", "7")], [123,34,97,34,58,49,125]⟩).console =
      ["\n===== POST REQUEST ======", "Path: " ++ "/webhook", "Headers:"]
        ++ [("Content-Length", "7")].map headerLine ++ ["Body:\n" ++ "\x7b\"a\":1\x7d"] ∧
    (do_POST ⟨"/webhook", [("Content-Length", "7")], [123,34,97,34,58,49,125]⟩).wire =
      [WireEvent.statusLine 200, WireEvent.header "Content-type" "text/plain",
        WireEvent.endHeaders, WireEvent.bodyWrite "POST request received"] ∧
    (do_POST ⟨"/webhook", [("Content-Length", "7")], [123,34,97,34,58,49,125]⟩).exn = none :=
  do_POST_valid_logs_body
    ⟨"/webhook", [("Content-Length", "7")], [123,34,97,34,58,49,125]⟩
    "\x7b\"a\":1\x7d" (by decide) (by decide)

/-- C3 counterexample: with `Content-Length: abc`, `do_POST` raises
`ValueError` from `int(...)` before printing or writing anything — it
does not behave like the `Content-Length: 0` run on the same request,
so a malformed header is not treated as a zero-length body. -/
theorem do_POST_malformed_cl_counterexample :
    (do_POST ⟨"/x", [("Content-Length", "abc")], [65]⟩).exn =
      some PyError.valueError ∧
    (do_POST ⟨"/x", [("Content-Length", "abc")], [65]⟩).console = [] ∧
    (do_POST ⟨"/x", [("Content-Length", "abc")], [65]⟩).wire = [] ∧
    (do_POST ⟨"/x", [("Content-Length", "0")], [65]⟩).exn = none := by
  refine ⟨?_, ?_, ?_, ?_⟩ <;> decide

/-- C3 amended: an unparsable `Content-Length` makes `int(...)` raise
`ValueError` on line 21, aborting `do_POST` with nothing printed and no
response bytes written (only a missing header falls back to 0). -/
theorem do_POST_malformed_cl_raises (req : Request)
    (h : postContentLength req = none) :
    do_POST req = { console := [], wire := [], exn := some PyError.valueError } := by
  unfold do_POST
  rw [h]

/-- Witness for the amended C3 at `Content-Length: abc`. -/
theorem do_POST_malformed_cl_raises_witness :
    do_POST ⟨"/x", [("Content-Length", "abc")], [65]⟩ =
      { console := [], wire := [], exn := some PyError.valueError } :=
  do_POST_malformed_cl_raises ⟨"/x", [("Content-Length", "abc")], [65]⟩ (by decide)

/-- C4 counterexample: with a one-byte body `0xFF` (not valid UTF-8)
and `Content-Length: 1`, `do_POST` raises `UnicodeDecodeError` and the
wire transcript is empty — in particular no 400-class (indeed no)
response reaches the client, and the handler itself logs no diagnostic
beyond the ordinary header block. -/
theorem do_POST_bad_utf8_counterexample :
    (do_POST ⟨"/x", [("Content-Length", "1")], [255]⟩).wire = [] ∧
    (do_POST ⟨"/x", [("Content-Length", "1")], [255]⟩).exn =
      some PyError.unicodeDecodeError := by
  refine ⟨?_, ?_⟩ <;> decide

/-- C4 amended: when the read on line 22 yields bytes that fail UTF-8
decoding, line 29 raises `UnicodeDecodeError` after the header block is
printed but before `_set_headers`, so the handler sends no response at
all; recovery (the listener surviving) is the surrounding server's
doing, outside this file. -/
theorem do_POST_bad_utf8_raises (req : Request) (cl : Int) (data : List Nat)
    (hcl : postContentLength req = some cl)
    (hread : rfileRead req.body cl = some data)
    (hdec : utf8DecodeString data = none) :
    do_POST req =
      { console :=
          ["\n===== POST REQUEST ======", "Path: " ++ req.path, "Headers:"]
            ++ req.headers.map headerLine
        wire := []
        exn := some PyError.unicodeDecodeError } := by
  unfold do_POST
  rw [hcl]
  simp only [hread, hdec]

/-- Witness for the amended C4 at body `0xFF`, `Content-Length: 1`. -/
theorem do_POST_bad_utf8_raises_witness :
    do_POST ⟨"/x", [("Content-Length", "1")], [255]⟩ =
      { console :=
          ["\n===== POST REQUEST ======", "Path: " ++ "/x", "Headers:"]
            ++ [("Content-Length", "1")].map headerLine
        wire := []
        exn := some PyError.unicodeDecodeError } :=
  do_POST_bad_utf8_raises ⟨"/x", [("Content-Length", "1")], [255]⟩ 1 [255]
    (by decide) (by decide) (by decide)

/-- C9: when the read body fails UTF-8 decoding, the decode on line 29
happens strictly before `_set_headers` (line 31) and the body write
(line 32), so at the moment of failure nothing has been written to the
client: the wire transcript is empty. -/
theorem do_POST_decode_failure_writes_nothing (req : Request) (cl : Int)
    (data : List Nat)
    (hcl : postContentLength req = some cl)
    (hread : rfileRead req.body cl = some data)
    (hdec : utf8DecodeString data = none) :
    (do_POST req).wire = [] := by
  unfold do_POST
  rw [hcl]
  simp only [hread, hdec]

/-- Witness for C9 at a truncated two-byte sequence `0xC3 0x28`. -/
theorem do_POST_decode_failure_writes_nothing_witness :
    (do_POST ⟨"/y", [("Content-Length", "2")], [195, 40]⟩).wire = [] :=
  do_POST_decode_failure_writes_nothing
    ⟨"/y", [("Content-Length", "2")], [195, 40]⟩ 2 [195, 40]
    (by decide) (by decide) (by decide)

/-- C10 counterexample: with `Content-Length: -2` the negative count
does reach `rfile.read` unclamped, but `io.BufferedReader.read` raises
`ValueError` ("read length must be non-negative or -1") instead of
reading the remaining stream: the run aborts with nothing printed, no
bytes consumed, and nothing written, refuting read-to-end behavior for
every negative value. -/
theorem do_POST_negative_cl_counterexample :
    rfileRead [65, 66] (-2) = none ∧
    do_POST ⟨"/n2", [("Content-Length", "-2")], [65, 66]⟩ =
      { console := [], wire := [], exn := some PyError.valueError } := by
  refine ⟨?_, ?_⟩ <;> decide

/-- C10 amended: the parsed `Content-Length` is passed to `rfile.read`
unclamped; a value of exactly `-1` makes the `BufferedReader` read the
entire remaining stream (logged in full if it decodes), while any value
below `-1` makes the read raise `ValueError`, aborting the handler
before anything is printed or written. -/
theorem do_POST_negative_cl_behavior (req : Request) (cl : Int)
    (hcl : postContentLength req = some cl) (hneg : cl < 0) :
    (cl = -1 →
      rfileRead req.body cl = some req.body ∧
      (∀ s, utf8DecodeString req.body = some s →
        (do_POST req).console.getLast? = some ("Body:\n" ++ s))) ∧
    (cl < -1 →
      do_POST req =
        { console := [], wire := [], exn := some PyError.valueError }) := by
  constructor
  · intro h1
    subst h1
    have hread : rfileRead req.body (-1) = some req.body := by
      unfold rfileRead
      rw [if_pos rfl]
    refine ⟨hread, fun s hdec => ?_⟩
    unfold do_POST
    rw [hcl]
    simp only [hread, hdec]
    exact List.getLast?_concat ..
  · intro h2
    have hread : rfileRead req.body cl = none := by
      unfold rfileRead
      rw [if_neg (by omega), if_pos h2]
    unfold do_POST
    rw [hcl]
    simp only [hread]

/-- Witness for the amended C10 at `Content-Length: -1` with stream
`AB` (the `cl < -1` branch is exercised by the counterexample run). -/
theorem do_POST_negative_cl_behavior_witness :
    rfileRead [65, 66] (-1) = some [65, 66] ∧
    (do_POST ⟨"/n", [("Content-Length", "-1")], [65, 66]⟩).console.getLast? =
      some ("Body:\n" ++ "AB") := by
  have h := (do_POST_negative_cl_behavior
    ⟨"/n", [("Content-Length", "-1")], [65, 66]⟩ (-1)
    (by decide) (by decide)).1 rfl
  exact ⟨h.1, h.2 "AB" (by decide)⟩

/-- `do_POST` on a request whose `Content-Length` resolves to 0: zero
body bytes are read, the logged body is the empty string, and the fixed
success response is written. -/
theorem do_POST_cl_zero (req : Request)
    (h : postContentLength req = some 0) :
    do_POST req =
      { console :=
          ["\n===== POST REQUEST ======", "Path: " ++ req.path, "Headers:"]
            ++ req.headers.map headerLine ++ ["Body:\n" ++ ""]
        wire := set_headers ++ [WireEvent.bodyWrite "POST request received"]
        exn := none } := by
  unfold do_POST
  rw [h]
  have hr : rfileRead req.body 0 = some [] := by unfold rfileRead; simp
  have hd : utf8DecodeString [] = some "" := by decide
  simp only [hr, hd]

/-- C5: a POST with no `Content-Length` header behaves exactly like one
with `Content-Length: 0` appended: both resolve the length to 0, zero
bytes are read from the stream, both log an empty body line, and both
write the same response with no exception. -/
theorem do_POST_missing_cl_like_zero (path : String)
    (hs : List (String × String)) (body : List Nat)
    (hno : hs.find? (fun p => lowerStr p.1 = lowerStr "Content-Length") = none) :
    postContentLength ⟨path, hs, body⟩ = some 0 ∧
    postContentLength ⟨path, hs ++ [("Content-Length", "0")], body⟩ = some 0 ∧
    rfileRead body 0 = some [] ∧
    (do_POST ⟨path, hs, body⟩).console.getLast? = some ("Body:\n" ++ "") ∧
    (do_POST ⟨path, hs ++ [("Content-Length", "0")], body⟩).console.getLast? =
      some ("Body:\n" ++ "") ∧
    (do_POST ⟨path, hs, body⟩).wire =
      (do_POST ⟨path, hs ++ [("Content-Length", "0")], body⟩).wire ∧
    (do_POST ⟨path, hs, body⟩).exn = none := by
  have h1 : postContentLength ⟨path, hs, body⟩ = some 0 := by
    unfold postContentLength headersGet
    rw [hno]
    rfl
  have h2 : postContentLength ⟨path, hs ++ [("Content-Length", "0")], body⟩ = some 0 := by
    unfold postContentLength headersGet
    rw [List.find?_append, hno]
    decide
  have r1 := do_POST_cl_zero ⟨path, hs, body⟩ h1
  have r2 := do_POST_cl_zero ⟨path, hs ++ [("Content-Length", "0")], body⟩ h2
  refine ⟨h1, h2, by unfold rfileRead; simp, ?_, ?_, ?_, ?_⟩
  · rw [r1]; exact List.getLast?_concat ..
  · rw [r2]; exact List.getLast?_concat ..
  · rw [r1, r2]
  · rw [r1]

/-- Witness for C5: a request carrying only a `Host` header. -/
theorem do_POST_missing_cl_like_zero_witness :
    postContentLength ⟨"/w", [("Host", "example")], [65]⟩ = some 0 ∧
    postContentLength ⟨"/w", [("Host", "example")] ++ [("Content-Length", "0")], [65]⟩ = some 0 ∧
    rfileRead [65] 0 = some [] ∧
    (do_POST ⟨"/w", [("Host", "example")], [65]⟩).console.getLast? =
      some ("Body:\n" ++ "") ∧
    (do_POST ⟨"/w", [("Host", "example")] ++ [("Content-Length", "0")], [65]⟩).console.getLast? =
      some ("Body:\n" ++ "") ∧
    (do_POST ⟨"/w", [("Host", "example")], [65]⟩).wire =
      (do_POST ⟨"/w", [("Host", "example")] ++ [("Content-Length", "0")], [65]⟩).wire ∧
    (do_POST ⟨"/w", [("Host", "example")], [65]⟩).exn = none :=
  do_POST_missing_cl_like_zero "/w" [("Host", "example")] [65] (by decide)

/-- C6: console output order. `do_GET` prints, in order, the section
marker, the path line, `"Headers:"`, then one line per header pair; a
`do_POST` whose length parses, whose read yields bytes, and whose bytes
decode prints the same shape with its own section marker plus a final
`"Body:"` marker carrying the decoded body (on one `print`, joined by
the f-string's embedded newline). -/
theorem console_output_order (req : Request) :
    (do_GET req).console =
      ["\n===== GET REQUEST ======", "Path: " ++ req.path, "Headers:"]
        ++ req.headers.map headerLine ∧
    (∀ cl data s, postContentLength req = some cl →
      rfileRead req.body cl = some data →
      utf8DecodeString data = some s →
      (do_POST req).console =
        ["\n===== POST REQUEST ======", "Path: " ++ req.path, "Headers:"]
          ++ req.headers.map headerLine ++ ["Body:\n" ++ s]) := by
  refine ⟨rfl, fun cl data s hcl hread hdec => ?_⟩
  unfold do_POST
  rw [hcl]
  simp only [hread, hdec]

/-- Witness for C6 at `GET /status` / `POST /status` with header
`X-Test: 1` and an empty stream. -/
theorem console_output_order_witness :
    (do_GET ⟨"/status", [("X-Test", "1")], []⟩).console =
      ["\n===== GET REQUEST ======", "Path: " ++ "/status", "Headers:"]
        ++ [("X-Test", "1")].map headerLine ∧
    (do_POST ⟨"/status", [("X-Test", "1")], []⟩).console =
      ["\n===== POST REQUEST ======", "Path: " ++ "/status", "Headers:"]
        ++ [("X-Test", "1")].map headerLine ++ ["Body:\n" ++ ""] :=
  ⟨(console_output_order ⟨"/status", [("X-Test", "1")], []⟩).1,
   (console_output_order ⟨"/status", [("X-Test", "1")], []⟩).2 0 [] ""
     (by decide) (by decide) (by decide)⟩

/-- C7: the logged header lines are exactly `headers.map headerLine`:
same order as receipt, one line per occurrence (so repeated names are
never merged), for GET always and for POST whenever handling reaches
the prints, that is whenever the length parsed and the read returned
(whether or not the body then decodes). -/
theorem header_lines_match_receipt (req : Request) :
    (do_GET req).console.drop 3 = req.headers.map headerLine ∧
    ((do_GET req).console.drop 3).length = req.headers.length ∧
    (∀ cl data, postContentLength req = some cl →
      rfileRead req.body cl = some data →
      ((do_POST req).console.drop 3).take req.headers.length =
        req.headers.map headerLine) := by
  refine ⟨rfl, by simp [do_GET], fun cl data hcl hread => ?_⟩
  unfold do_POST
  rw [hcl]
  simp only [hread]
  cases hdec : utf8DecodeString data with
  | none =>
    simp only [hdec]
    exact List.take_of_length_le (by simp)
  | some s =>
    simp only [hdec]
    show ((req.headers.map headerLine ++ ["Body:\n" ++ s]).take req.headers.length) =
      req.headers.map headerLine
    exact List.take_left' (by simp)

/-- Witness for C7 with the repeated header name `X-A`: both
occurrences are logged, in order. -/
theorem header_lines_match_receipt_witness :
    (do_GET ⟨"/d", [("X-A", "1"), ("X-A", "2")], []⟩).console.drop 3 =
      [("X-A", "1"), ("X-A", "2")].map headerLine ∧
    ((do_GET ⟨"/d", [("X-A", "1"), ("X-A", "2")], []⟩).console.drop 3).length =
      ([("X-A", "1"), ("X-A", "2")] : List (String × String)).length ∧
    ((do_POST ⟨"/d", [("X-A", "1"), ("X-A", "2")], []⟩).console.drop 3).take
        ([("X-A", "1"), ("X-A", "2")] : List (String × String)).length =
      [("X-A", "1"), ("X-A", "2")].map headerLine :=
  ⟨(header_lines_match_receipt ⟨"/d", [("X-A", "1"), ("X-A", "2")], []⟩).1,
   (header_lines_match_receipt ⟨"/d", [("X-A", "1"), ("X-A", "2")], []⟩).2.1,
   (header_lines_match_receipt ⟨"/d", [("X-A", "1"), ("X-A", "2")], []⟩).2.2 0 []
     (by decide) (by decide)⟩

/-- C8: the wire transcript depends on the method alone: any two GET
requests whatsoever produce identical response events, and any two POST
requests that complete without an exception produce identical response
events, whatever their paths, headers, or bodies. -/
theorem response_function_of_method (r1 r2 : Request) :
    (do_GET r1).wire = (do_GET r2).wire ∧
    ((do_POST r1).exn = none → (do_POST r2).exn = none →
      (do_POST r1).wire = (do_POST r2).wire) := by
  refine ⟨rfl, fun h1 h2 => ?_⟩
  rw [do_POST_exn_none_wire r1 h1, do_POST_exn_none_wire r2 h2]

/-- Witness for C8 at two requests differing in path, headers, and
body. -/
theorem response_function_of_method_witness :
    (do_GET ⟨"/a", [("Content-Length", "1")], [65]⟩).wire =
      (do_GET ⟨"/b", [("Host", "h")], [66, 67]⟩).wire ∧
    (do_POST ⟨"/a", [("Content-Length", "1")], [65]⟩).wire =
      (do_POST ⟨"/b", [("Host", "h")], [66, 67]⟩).wire :=
  ⟨(response_function_of_method ⟨"/a", [("Content-Length", "1")], [65]⟩
      ⟨"/b", [("Host", "h")], [66, 67]⟩).1,
   (response_function_of_method ⟨"/a", [("Content-Length", "1")], [65]⟩
      ⟨"/b", [("Host", "h")], [66, 67]⟩).2 (by decide) (by decide)⟩
